import Mathlib

/-
Verification of the ai-tutor-server chat relay against its specification.

The model is a shallow embedding of src/routes/chat.js:
- the chat_messages table is a list of rows inside a DB state whose clock
  supplies the NOW() timestamps and whose counter supplies SERIAL ids;
- each Socket.io handler becomes a pure function from the DB state and the
  inbound payload to the new DB state plus an ordered list of observable
  steps (row inserts and events emitted to the originating connection);
- the Gemini streaming call is an oracle (GenOutcome) that either yields a
  finite chunk list or fails, possibly mid-stream after a chunk prefix, and
  the success of each INSERT is likewise an explicit oracle bit.
-/

inductive Sender where
  | user
  | ai
deriving Repr, DecidableEq

/-- Row of the chat_messages table: id and timestamp are store-assigned. -/
structure ChatTurn where
  id : Nat
  userId : Nat
  goalId : Option Nat
  message : String
  sender : Sender
  timestamp : Nat
deriving Repr, DecidableEq

/-- Database state: chat_messages rows plus the SERIAL counter and the clock
backing NOW(); each insert advances the clock, so later inserts get strictly
larger timestamps. -/
structure DB where
  rows : List ChatTurn
  nextId : Nat
  clock : Nat
deriving Repr, DecidableEq

/-- Execution of one INSERT INTO chat_messages ... RETURNING *: the store
assigns the id and the timestamp and returns the fresh row. -/
def DB.insert (db : DB) (uid : Nat) (gid : Option Nat) (msg : String)
    (s : Sender) : DB × ChatTurn :=
  let t : ChatTurn :=
    { id := db.nextId, userId := uid, goalId := gid, message := msg,
      sender := s, timestamp := db.clock }
  ({ rows := db.rows ++ [t], nextId := db.nextId + 1, clock := db.clock + 1 }, t)

/-- Well-formedness: every stored row was written at a past clock tick. -/
def DB.WF (db : DB) : Prop := ∀ r ∈ db.rows, r.timestamp < db.clock

/-- Events emitted to sockets (socket.emit payloads in chat.js). -/
inductive Event where
  | chatMessage (id : Nat) (message : String) (sender : Sender) (timestamp : Nat)
  | errorEvent (message : String)
  | aiTyping (b : Bool)
  | aiMessageChunk (content : String) (isComplete : Bool)
  | userTyping (userId : Nat) (isTyping : Bool)
  | chatHistory (messages : List ChatTurn) (hasMore : Bool)
deriving Repr, DecidableEq

/-- One observable step of a handler run, in program order: a successful
insert, a failed insert attempt, an emission to the originating socket, the
streaming call to the model, or the delayed scheduling of generateAIResponse. -/
inductive Step where
  | persist (t : ChatTurn)
  | persistFail
  | emit (e : Event)
  | callModel (prompt : String)
  | triggerGeneration (message : String) (goalId : Option Nat)
deriving Repr, DecidableEq

/-- Whitespace characters removed by the JavaScript String.trim used in the
empty-message check (ASCII fragment). -/
def isJsWhitespace (c : Char) : Bool :=
  c == ' ' || c == '\t' || c == '\n' || c == '\r' || c == '\x0B' || c == '\x0C'

/-- Model of message.trim() from the empty-message guard in chat.js. -/
def jsTrim (s : String) : String :=
  String.mk (((s.data.dropWhile isJsWhitespace).reverse.dropWhile isJsWhitespace).reverse)

/-- JavaScript truthiness applied to a goal id, as in goalId || null and
if (goalId): the id 0 and an absent id are both falsy. -/
def truthyGoal : Option Nat → Option Nat
  | some 0 => none
  | some g => some g
  | none => none

/-- Fixed fallback text substituted when generation fails (chat.js line 286). -/
def fallbackResponse : String :=
  "I\x27m here to help you with your learning goals! What would you like to work on today?"

/-- Handler for the chat_message event (chat.js lines 35-69): reject blank
text with an error event; otherwise insert the user turn, emit the
confirmation built from the returned row, and schedule generation. The
insertOk bit is the success of the INSERT; on failure the catch block emits
the generic error. -/
def handleChatMessage (db : DB) (insertOk : Bool) (uid : Nat)
    (message : String) (gid : Option Nat) : DB × List Step :=
  if jsTrim message = "" then
    (db, [Step.emit (Event.errorEvent "Message cannot be empty")])
  else if insertOk then
    let r := db.insert uid (truthyGoal gid) message Sender.user
    (r.1, [Step.persist r.2,
           Step.emit (Event.chatMessage r.2.id message Sender.user r.2.timestamp),
           Step.triggerGeneration message gid])
  else
    (db, [Step.persistFail, Step.emit (Event.errorEvent "Failed to process message")])

/-- Ordering used by ORDER BY timestamp DESC: a precedes b when the
timestamp of b is at most the timestamp of a. -/
def tsGe (a b : ChatTurn) : Prop := b.timestamp ≤ a.timestamp

instance : DecidableRel tsGe := fun a b =>
  inferInstanceAs (Decidable (b.timestamp ≤ a.timestamp))

instance : IsTotal ChatTurn tsGe := ⟨fun a b => Nat.le_total b.timestamp a.timestamp⟩

instance : IsTrans ChatTurn tsGe := ⟨fun _ _ _ h1 h2 => Nat.le_trans h2 h1⟩

/-- Milestone row as aggregated into the goal query (chat.js lines 149-156). -/
structure Milestone where
  title : String
  completed : Bool
  dueDate : Option String
  milestoneOrder : Nat
deriving Repr, DecidableEq

/-- Goal row joined with its milestones (goals and milestones tables). -/
structure Goal where
  id : Nat
  userId : Nat
  title : String
  description : String
  status : String
  difficultyLevel : String
  estimatedDurationWeeks : Nat
  milestones : List Milestone
  updatedAt : Nat
deriving Repr, DecidableEq

/-- Ordering of the milestone aggregate (ORDER BY m.milestone_order). -/
def msOrderLe (a b : Milestone) : Prop := a.milestoneOrder ≤ b.milestoneOrder

instance : DecidableRel msOrderLe := fun a b =>
  inferInstanceAs (Decidable (a.milestoneOrder ≤ b.milestoneOrder))

/-- Ordering of the recent-goals query (ORDER BY updated_at DESC). -/
def updGe (a b : Goal) : Prop := b.updatedAt ≤ a.updatedAt

instance : DecidableRel updGe := fun a b =>
  inferInstanceAs (Decidable (b.updatedAt ≤ a.updatedAt))

/-- Goal-scoped context block (chat.js lines 145-184): the query filters by
both the goal id and the callers user id; with no matching row the context
stays empty. -/
def goalContext (goals : List Goal) (g uid : Nat) : String :=
  match goals.find? (fun go => go.id == g && go.userId == uid) with
  | none => ""
  | some goal =>
      let ms := List.insertionSort msOrderLe goal.milestones
      let completedCount := (ms.filter (fun m => m.completed)).length
      let base :=
        "\n\nCurrent Learning Context:\n- Goal: " ++ goal.title ++ " (" ++
        goal.difficultyLevel ++ " level)\n- Description: " ++ goal.description ++
        "\n- Status: " ++ goal.status ++ "\n- Progress: " ++
        toString completedCount ++ "/" ++ toString ms.length ++
        " milestones completed\n- Estimated Duration: " ++
        toString goal.estimatedDurationWeeks ++ " weeks"
      match ms.find? (fun m => !m.completed) with
      | none => base
      | some nm =>
          let withNext := base ++ "\n- Next Milestone: " ++ nm.title
          match nm.dueDate with
          | none => withNext
          | some d => withNext ++ " (Due: " ++ d ++ ")"

/-- Profile context block for goal-less chat (chat.js lines 185-226): the
aggregate stats query and the recent active goals query both filter by the
callers user id. -/
def profileContext (db : DB) (goals : List Goal) (uid : Nat) : String :=
  let myGoals := goals.filter (fun g => g.userId == uid)
  let totalGoals := myGoals.length
  let activeGoals := (myGoals.filter (fun g => g.status == "active")).length
  let completedGoals := (myGoals.filter (fun g => g.status == "completed")).length
  let totalMilestones := (myGoals.map (fun g => g.milestones.length)).sum
  let completedMilestones :=
    (myGoals.map (fun g => (g.milestones.filter (fun m => m.completed)).length)).sum
  let totalChat :=
    if totalGoals = 0 then 0 else (db.rows.filter (fun r => r.userId == uid)).length
  let base :=
    "\n\nUser Learning Profile:\n- Total Goals: " ++ toString totalGoals ++
    " (" ++ toString activeGoals ++ " active, " ++ toString completedGoals ++
    " completed)\n- Milestone Progress: " ++ toString completedMilestones ++
    "/" ++ toString totalMilestones ++ " completed\n- Chat History: " ++
    toString totalChat ++ " messages exchanged"
  let recent :=
    (List.insertionSort updGe
      (goals.filter (fun g =>
        g.userId == uid && (g.status == "active" || g.status == "paused")))).take 3
  match recent with
  | [] => base
  | _ =>
      base ++ "\n- Recent Active Goals: " ++
      String.intercalate ", " (recent.map (fun g => g.title ++ " (" ++ g.status ++ ")"))

/-- The personalized context chosen by the if (goalId) dispatch. -/
def personalizedContext (db : DB) (goals : List Goal) (uid : Nat)
    (gid : Option Nat) : String :=
  match truthyGoal gid with
  | some g => goalContext goals g uid
  | none => profileContext db goals uid

/-- Conversational-memory query (chat.js lines 129-135): the callers rows
ordered by timestamp descending, limited to 10 — newest first. -/
def recentMessagesList (db : DB) (uid : Nat) : List ChatTurn :=
  (List.insertionSort tsGe (db.rows.filter (fun r => r.userId == uid))).take 10

/-- Rendering of one remembered turn as a labeled prompt line. -/
def renderTurn (t : ChatTurn) : String :=
  (if t.sender = Sender.user then "User" else "Assistant") ++ ": " ++ t.message

/-- Model of Array.prototype.join with a newline separator. -/
def joinLines : List String → String
  | [] => ""
  | [a] => a
  | a :: b :: rest => a ++ "\n" ++ joinLines (b :: rest)

/-- Model of slice(-10): keep the final ten elements. -/
def sliceLast10 (l : List ChatTurn) : List ChatTurn := l.drop (l.length - 10)

/-- The Previous conversation block of the prompt (chat.js lines 231-237). -/
def conversationHistory (db : DB) (uid : Nat) : String :=
  joinLines ((sliceLast10 (recentMessagesList db uid)).map renderTurn)

/-- Fixed system instruction from the top of chat.js. -/
def systemPrompt : String :=
  "You are an AI tutor helping a student achieve their learning goals. Your role:\n- Provide encouraging, supportive guidance\n- Ask clarifying questions to understand their needs\n- Offer specific, actionable advice\n- Break down complex concepts into manageable steps\n- Celebrate progress and help overcome obstacles\n- Keep responses conversational and engaging\n\nGuidelines:\n- Be encouraging but realistic\n- Provide specific examples when helpful\n- Ask follow-up questions to gauge understanding\n- Suggest practical exercises or next steps\n- Keep responses focused and concise (2-3 paragraphs max)"

/-- The full prompt handed to the model (chat.js lines 239-244). -/
def assembledPrompt (db : DB) (goals : List Goal) (uid : Nat)
    (userMessage : String) (gid : Option Nat) : String :=
  systemPrompt ++ personalizedContext db goals uid gid ++
    "\n\nPrevious conversation:\n" ++ conversationHistory db uid ++
    "\n\nUser: " ++ userMessage

/-- Outcome of the external streaming call: either the finite chunk list of
a completed stream, a mid-stream failure after a chunk prefix (a failure at
stream open is the empty prefix), or a failure in the context queries before
the typing indicator and the stream ever start. -/
inductive GenOutcome where
  | success (chunks : List String)
  | streamFail (pre : List String)
  | earlyFail
deriving Repr, DecidableEq

/-- Oracles for one generateAIResponse run: the stream outcome and the
success bits of the final INSERT and of the fallback INSERT. -/
structure GenEnv where
  outcome : GenOutcome
  aiInsertOk : Bool
  fallbackInsertOk : Bool
deriving Repr, DecidableEq

/-- The for-await loop over the stream (chat.js lines 253-263): accumulate
and emit each chunk whose text is non-empty, in order. -/
def streamLoop (acc : String) (emitted : List Step) :
    List String → String × List Step
  | [] => (acc, emitted)
  | c :: rest =>
      if c = "" then streamLoop acc emitted rest
      else streamLoop (acc ++ c)
        (emitted ++ [Step.emit (Event.aiMessageChunk c false)]) rest

/-- The catch block of generateAIResponse (chat.js lines 282-308): insert
the fallback as the AI turn and emit it after stopping the typing
indicator; if that insert also fails, emit the single generic error. -/
def fallbackSteps (db : DB) (fallbackInsertOk : Bool) (uid : Nat)
    (gid : Option Nat) : DB × List Step :=
  if fallbackInsertOk then
    let r := db.insert uid (truthyGoal gid) fallbackResponse Sender.ai
    (r.1, [Step.persist r.2,
           Step.emit (Event.aiTyping false),
           Step.emit (Event.chatMessage r.2.id fallbackResponse Sender.ai r.2.timestamp)])
  else
    (db, [Step.persistFail, Step.emit (Event.errorEvent "Failed to generate response")])

/-- Model of generateAIResponse (chat.js lines 126-309): assemble the
prompt, stream the response while emitting chunks, stop the typing
indicator, persist the full text and emit the final message; any raised
failure diverts to the fallback catch block. -/
def generateAIResponse (db : DB) (goals : List Goal) (env : GenEnv)
    (uid : Nat) (userMessage : String) (gid : Option Nat) : DB × List Step :=
  let prompt := assembledPrompt db goals uid userMessage gid
  match env.outcome with
  | GenOutcome.earlyFail =>
      fallbackSteps db env.fallbackInsertOk uid gid
  | GenOutcome.streamFail pre =>
      let run := streamLoop "" [] pre
      let fb := fallbackSteps db env.fallbackInsertOk uid gid
      (fb.1, Step.callModel prompt :: Step.emit (Event.aiTyping true) :: run.2 ++ fb.2)
  | GenOutcome.success chunks =>
      let run := streamLoop "" [] chunks
      let head := Step.callModel prompt :: Step.emit (Event.aiTyping true) :: run.2 ++
        [Step.emit (Event.aiTyping false)]
      if env.aiInsertOk then
        let r := db.insert uid (truthyGoal gid) run.1 Sender.ai
        (r.1, head ++
          [Step.persist r.2,
           Step.emit (Event.chatMessage r.2.id run.1 Sender.ai r.2.timestamp)])
      else
        let fb := fallbackSteps db env.fallbackInsertOk uid gid
        (fb.1, head ++ Step.persistFail :: fb.2)

/-- Rows inserted during a run, in order. -/
def persistedTurns (steps : List Step) : List ChatTurn :=
  steps.filterMap fun s =>
    match s with
    | Step.persist t => some t
    | _ => none

/-- Number of insert attempts in a run, successful or not. -/
def insertAttempts (steps : List Step) : Nat :=
  steps.countP fun s =>
    match s with
    | Step.persist _ => true
    | Step.persistFail => true
    | _ => false

/-- Recognizer of emitted error events. -/
def isErrorEvent (s : Step) : Bool :=
  match s with
  | Step.emit (Event.errorEvent _) => true
  | _ => false

/-- Chunk texts emitted to the connection, in emission order. -/
def emittedChunkTexts (steps : List Step) : List String :=
  steps.filterMap fun s =>
    match s with
    | Step.emit (Event.aiMessageChunk c _) => some c
    | _ => none

/-- Concatenation of a list of strings, in order. -/
def concatStrings : List String → String
  | [] => ""
  | s :: rest => s ++ concatStrings rest

/-- Raw pagination parameters pushed into the history query (chat.js lines
82 and 96-97): destructuring defaults apply only when the field is absent,
and the values are forwarded into the SQL as-is. -/
def historyQueryParams (limitArg offsetArg : Option Int) : Int × Int :=
  (limitArg.getD 50, offsetArg.getD 0)

/-- Handler for the get_chat_history event with in-range parameters
(chat.js lines 80-110): filter the callers rows (and the goal when the
supplied goal id is truthy), order by timestamp descending, page with
offset and limit, reverse to oldest-first, and report hasMore exactly when
a full page came back. -/
def getChatHistory (db : DB) (uid : Nat) (gid : Option Nat)
    (limitN offsetN : Nat) : List ChatTurn × Bool :=
  let base := db.rows.filter (fun r => r.userId == uid)
  let mine :=
    match truthyGoal gid with
    | some g => base.filter (fun r => r.goalId == some g)
    | none => base
  let page := ((List.insertionSort tsGe mine).drop offsetN).take limitN
  (page.reverse, page.length = limitN)

/-- A live socket connection bound to an authenticated identity. -/
structure Conn where
  connId : Nat
  userId : Nat
deriving Repr, DecidableEq

/-- Recipients of socket.to(user room).emit: every connection joined to the
senders user room except the sender itself. -/
def typingRecipients (conns : List Conn) (sender : Conn) : List Conn :=
  conns.filter (fun c => c.userId == sender.userId && c.connId != sender.connId)

/-- Handler for the typing event (chat.js lines 72-77): no persistence, one
user_typing event delivered to the senders private scope minus the sender. -/
def handleTyping (db : DB) (conns : List Conn) (sender : Conn)
    (isTyping : Bool) : DB × List Conn × Event :=
  (db, typingRecipients conns sender, Event.userTyping sender.userId isTyping)

/-- C1: a chat_message submission with non-blank text persists exactly one
user turn, the persist step precedes the confirmation emission, and the
confirmation carries the store-assigned id and timestamp of that row. -/
theorem submit_message_persists_then_confirms (db : DB) (uid : Nat)
    (message : String) (gid : Option Nat) (h : jsTrim message ≠ "") :
    ∃ t : ChatTurn,
      (handleChatMessage db true uid message gid).1.rows = db.rows ++ [t] ∧
      t.sender = Sender.user ∧ t.message = message ∧ t.userId = uid ∧
      (handleChatMessage db true uid message gid).2 =
        [Step.persist t,
         Step.emit (Event.chatMessage t.id message Sender.user t.timestamp),
         Step.triggerGeneration message gid] := by
  refine ⟨{ id := db.nextId, userId := uid, goalId := truthyGoal gid,
            message := message, sender := Sender.user, timestamp := db.clock },
          ?_, rfl, rfl, rfl, ?_⟩ <;>
    simp [handleChatMessage, if_neg h, DB.insert]

/-- Witness for C1 at a concrete input: an empty store, user 7, text hello. -/
theorem submit_message_persists_then_confirms_witness :
    ∃ t : ChatTurn,
      (handleChatMessage ⟨[], 1, 0⟩ true 7 "hello" none).1.rows = [] ++ [t] ∧
      t.sender = Sender.user ∧ t.message = "hello" ∧ t.userId = 7 ∧
      (handleChatMessage ⟨[], 1, 0⟩ true 7 "hello" none).2 =
        [Step.persist t,
         Step.emit (Event.chatMessage t.id "hello" Sender.user t.timestamp),
         Step.triggerGeneration "hello" none] :=
  submit_message_persists_then_confirms ⟨[], 1, 0⟩ 7 "hello" none (by decide)

/-- C8: a chat_message submission whose text trims to the empty string
persists nothing, schedules no generation, leaves the store unchanged, and
emits exactly the validation error event. -/
theorem submit_blank_message_rejected (db : DB) (insertOk : Bool) (uid : Nat)
    (message : String) (gid : Option Nat) (h : jsTrim message = "") :
    handleChatMessage db insertOk uid message gid =
      (db, [Step.emit (Event.errorEvent "Message cannot be empty")]) := by
  simp [handleChatMessage, h]

/-- Witness for C8 at the concrete whitespace-only input from the spec. -/
theorem submit_blank_message_rejected_witness :
    handleChatMessage ⟨[], 1, 0⟩ true 7 "   " none =
      (⟨[], 1, 0⟩, [Step.emit (Event.errorEvent "Message cannot be empty")]) :=
  submit_blank_message_rejected ⟨[], 1, 0⟩ true 7 "   " none (by decide)

/-- Unrolling of the streaming loop: the accumulated text is the ordered
concatenation of the non-empty chunks and the emitted steps are exactly one
chunk event per non-empty chunk, in order. -/
theorem streamLoop_eq (l : List String) : ∀ (acc : String) (em : List Step),
    streamLoop acc em l =
      (acc ++ concatStrings (l.filter (fun c => decide (c ≠ ""))),
       em ++ (l.filter (fun c => decide (c ≠ ""))).map
         (fun c => Step.emit (Event.aiMessageChunk c false))) := by
  induction l with
  | nil => intro acc em; simp [streamLoop, concatStrings]
  | cons c rest ih =>
      intro acc em
      by_cases hc : c = ""
      · subst hc
        simp [streamLoop, ih]
      · simp [streamLoop, hc, ih, concatStrings, String.append_assoc]

/-- Finding with a predicate that refines the filter predicate ignores the
filtering. -/
theorem find?_filter_of_imp {α : Type} (p q : α → Bool)
    (h : ∀ a, p a = true → q a = true) :
    ∀ l : List α, (l.filter q).find? p = l.find? p := by
  intro l
  induction l with
  | nil => rfl
  | cons a tl ih =>
      by_cases hq : q a = true
      · rw [List.filter_cons_of_pos hq]
        by_cases hp : p a = true
        · rw [List.find?_cons_of_pos _ hp, List.find?_cons_of_pos _ hp]
        · rw [List.find?_cons_of_neg _ hp, List.find?_cons_of_neg _ hp, ih]
      · have hp : ¬ p a = true := fun hpa => hq (h a hpa)
        rw [List.filter_cons_of_neg (by simpa using hq), ih,
            List.find?_cons_of_neg _ hp]

/-- Sorting a list after appending an element whose timestamp strictly
dominates every other puts that element first, with the remainder a
permutation of the original list. -/
theorem insertionSort_max_head (l : List ChatTurn) (x : ChatTurn)
    (hmax : ∀ y ∈ l, y.timestamp < x.timestamp) :
    ∃ t, List.insertionSort tsGe (l ++ [x]) = x :: t ∧ t.Perm l := by
  have hperm : (List.insertionSort tsGe (l ++ [x])).Perm (x :: l) :=
    (List.perm_insertionSort tsGe (l ++ [x])).trans (List.perm_append_singleton x l)
  have hx : x ∈ List.insertionSort tsGe (l ++ [x]) :=
    hperm.mem_iff.mpr (List.mem_cons_self x l)
  cases hsort : List.insertionSort tsGe (l ++ [x]) with
  | nil => rw [hsort] at hx; exact absurd hx (List.not_mem_nil x)
  | cons h t =>
      have hsorted : List.Sorted tsGe (h :: t) :=
        hsort ▸ List.sorted_insertionSort tsGe (l ++ [x])
      rw [hsort] at hperm hx
      have hhx : h = x := by
        have hmem : h ∈ x :: l := hperm.subset (List.mem_cons_self h t)
        rcases List.mem_cons.mp hmem with he | hl
        · exact he
        · rcases List.mem_cons.mp hx with hxe | hxt
          · exact hxe.symm
          · have hle : tsGe h x := List.rel_of_sorted_cons hsorted x hxt
            exact absurd (Nat.lt_of_lt_of_le (hmax h hl) hle) (Nat.lt_irrefl _)
      subst hhx
      exact ⟨t, rfl, hperm.cons_inv⟩

/-- C2: when the streaming call (or any step before the final persistence)
fails, the handler persists the fixed fallback text as the single AI turn of
the run, stops the typing indicator, emits the fallback as a normal
completed message, and emits no error event; when the fallback insert also
fails, exactly one error event is emitted, nothing is persisted, the store
is unchanged, and only one insert is ever attempted. -/
theorem generation_failure_fallback (db : DB) (goals : List Goal) (env : GenEnv)
    (uid : Nat) (msg : String) (gid : Option Nat)
    (hfail : env.outcome = GenOutcome.earlyFail ∨
             ∃ pre, env.outcome = GenOutcome.streamFail pre) :
    (env.fallbackInsertOk = true →
      ∃ t : ChatTurn,
        (generateAIResponse db goals env uid msg gid).1.rows = db.rows ++ [t] ∧
        t.message = fallbackResponse ∧ t.sender = Sender.ai ∧
        persistedTurns (generateAIResponse db goals env uid msg gid).2 = [t] ∧
        Step.emit (Event.aiTyping false) ∈ (generateAIResponse db goals env uid msg gid).2 ∧
        Step.emit (Event.chatMessage t.id fallbackResponse Sender.ai t.timestamp) ∈
          (generateAIResponse db goals env uid msg gid).2 ∧
        (generateAIResponse db goals env uid msg gid).2.countP isErrorEvent = 0) ∧
    (env.fallbackInsertOk = false →
      (generateAIResponse db goals env uid msg gid).2.countP isErrorEvent = 1 ∧
      persistedTurns (generateAIResponse db goals env uid msg gid).2 = [] ∧
      insertAttempts (generateAIResponse db goals env uid msg gid).2 = 1 ∧
      (generateAIResponse db goals env uid msg gid).1 = db) := by
  constructor
  · intro hok
    refine ⟨{ id := db.nextId, userId := uid, goalId := truthyGoal gid,
              message := fallbackResponse, sender := Sender.ai,
              timestamp := db.clock }, ?_⟩
    rcases hfail with he | ⟨pre, hs⟩
    · simp [generateAIResponse, he, fallbackSteps, hok, DB.insert,
            persistedTurns, insertAttempts, isErrorEvent, streamLoop_eq,
            List.filterMap_append, List.filterMap_map, List.countP_append,
            List.countP_map, List.countP_cons]
    · simp [generateAIResponse, hs, fallbackSteps, hok, DB.insert,
            persistedTurns, insertAttempts, isErrorEvent, streamLoop_eq,
            List.filterMap_append, List.filterMap_map, List.countP_append,
            List.countP_map, List.countP_cons]
  · intro hko
    rcases hfail with he | ⟨pre, hs⟩
    · simp [generateAIResponse, he, fallbackSteps, hko, DB.insert,
            persistedTurns, insertAttempts, isErrorEvent, streamLoop_eq,
            List.filterMap_append, List.filterMap_map, List.countP_append,
            List.countP_map, List.countP_cons]
    · simp [generateAIResponse, hs, fallbackSteps, hko, DB.insert,
            persistedTurns, insertAttempts, isErrorEvent, streamLoop_eq,
            List.filterMap_append, List.filterMap_map, List.countP_append,
            List.countP_map, List.countP_cons]

/-- Witness for C2: on an early generation failure over an empty store the
fallback turn is persisted and emitted with no error event. -/
theorem generation_failure_fallback_witness :
    ∃ t : ChatTurn,
      (generateAIResponse ⟨[], 0, 0⟩ [] ⟨GenOutcome.earlyFail, true, true⟩ 1 "hi" none).1.rows =
        [] ++ [t] ∧
      t.message = fallbackResponse ∧ t.sender = Sender.ai ∧
      persistedTurns (generateAIResponse ⟨[], 0, 0⟩ [] ⟨GenOutcome.earlyFail, true, true⟩ 1 "hi" none).2 = [t] ∧
      Step.emit (Event.aiTyping false) ∈
        (generateAIResponse ⟨[], 0, 0⟩ [] ⟨GenOutcome.earlyFail, true, true⟩ 1 "hi" none).2 ∧
      Step.emit (Event.chatMessage t.id fallbackResponse Sender.ai t.timestamp) ∈
        (generateAIResponse ⟨[], 0, 0⟩ [] ⟨GenOutcome.earlyFail, true, true⟩ 1 "hi" none).2 ∧
      (generateAIResponse ⟨[], 0, 0⟩ [] ⟨GenOutcome.earlyFail, true, true⟩ 1 "hi" none).2.countP isErrorEvent = 0 :=
  (generation_failure_fallback ⟨[], 0, 0⟩ [] ⟨GenOutcome.earlyFail, true, true⟩ 1 "hi" none
    (Or.inl rfl)).1 rfl

/-- C3 counterexample: a generation whose stream fails after emitting the
chunk He persists the fallback text, so the concatenation of the emitted
chunks differs from the finally persisted AI turn text. -/
theorem generation_chunk_concat_counterexample :
    concatStrings (emittedChunkTexts
      (generateAIResponse ⟨[], 0, 0⟩ [] ⟨GenOutcome.streamFail ["He"], true, true⟩ 1 "hi" none).2) = "He" ∧
    persistedTurns
      (generateAIResponse ⟨[], 0, 0⟩ [] ⟨GenOutcome.streamFail ["He"], true, true⟩ 1 "hi" none).2 =
      [⟨0, 1, none, fallbackResponse, Sender.ai, 0⟩] ∧
    "He" ≠ fallbackResponse := by
  refine ⟨rfl, rfl, ?_⟩
  decide

/-- Projecting the chunk texts back out of a list of chunk-emission steps
recovers the original text list. -/
theorem emittedChunkTexts_map (l : List String) :
    emittedChunkTexts (l.map (fun c => Step.emit (Event.aiMessageChunk c false))) = l := by
  induction l with
  | nil => rfl
  | cons c rest ih => simp [emittedChunkTexts, List.filterMap_cons] at ih ⊢; exact ih

/-- Chunk texts distribute over step-list concatenation. -/
theorem emittedChunkTexts_append (l1 l2 : List Step) :
    emittedChunkTexts (l1 ++ l2) = emittedChunkTexts l1 ++ emittedChunkTexts l2 := by
  simp [emittedChunkTexts, List.filterMap_append]

/-- A model call contributes no chunk text. -/
theorem emittedChunkTexts_cons_callModel (p : String) (l : List Step) :
    emittedChunkTexts (Step.callModel p :: l) = emittedChunkTexts l := by
  simp [emittedChunkTexts, List.filterMap_cons]

/-- A typing-indicator event contributes no chunk text. -/
theorem emittedChunkTexts_cons_typing (b : Bool) (l : List Step) :
    emittedChunkTexts (Step.emit (Event.aiTyping b) :: l) = emittedChunkTexts l := by
  simp [emittedChunkTexts, List.filterMap_cons]

/-- A persisted row contributes no chunk text. -/
theorem emittedChunkTexts_cons_persist (t : ChatTurn) (l : List Step) :
    emittedChunkTexts (Step.persist t :: l) = emittedChunkTexts l := by
  simp [emittedChunkTexts, List.filterMap_cons]

/-- A completed-message event contributes no chunk text. -/
theorem emittedChunkTexts_cons_final (i : Nat) (m : String) (s : Sender)
    (ts : Nat) (l : List Step) :
    emittedChunkTexts (Step.emit (Event.chatMessage i m s ts) :: l) = emittedChunkTexts l := by
  simp [emittedChunkTexts, List.filterMap_cons]

/-- The empty step list carries no chunk text. -/
theorem emittedChunkTexts_nil : emittedChunkTexts [] = [] := rfl

/-- C3 amended: for a generation whose stream completes and whose final
persistence succeeds, the concatenation of the chunk texts emitted to the
connection, in emission order, equals the text of the AI turn persisted for
the run. -/
theorem generation_success_chunk_concat (db : DB) (goals : List Goal)
    (env : GenEnv) (uid : Nat) (msg : String) (gid : Option Nat)
    (chunks : List String)
    (h1 : env.outcome = GenOutcome.success chunks) (h2 : env.aiInsertOk = true) :
    ∃ t : ChatTurn,
      persistedTurns (generateAIResponse db goals env uid msg gid).2 = [t] ∧
      t.sender = Sender.ai ∧
      (generateAIResponse db goals env uid msg gid).1.rows = db.rows ++ [t] ∧
      concatStrings (emittedChunkTexts (generateAIResponse db goals env uid msg gid).2) =
        t.message := by
  refine ⟨{ id := db.nextId, userId := uid, goalId := truthyGoal gid,
            message := (streamLoop "" [] chunks).1, sender := Sender.ai,
            timestamp := db.clock }, ?_, rfl, ?_, ?_⟩
  · simp [generateAIResponse, h1, h2, DB.insert, persistedTurns,
          streamLoop_eq, List.filterMap_append, List.filterMap_map,
          String.empty_append, emittedChunkTexts]
  · simp [generateAIResponse, h1, h2, DB.insert, streamLoop_eq,
          String.empty_append]
  · simp [generateAIResponse, h1, h2, DB.insert, streamLoop_eq,
          String.empty_append, emittedChunkTexts_append, emittedChunkTexts_map,
          emittedChunkTexts_cons_callModel, emittedChunkTexts_cons_typing,
          emittedChunkTexts_cons_persist, emittedChunkTexts_cons_final,
          emittedChunkTexts_nil]

/-- Witness for the amended C3 at a two-chunk stream over an empty store. -/
theorem generation_success_chunk_concat_witness :
    ∃ t : ChatTurn,
      persistedTurns (generateAIResponse ⟨[], 0, 0⟩ [] ⟨GenOutcome.success ["a", "b"], true, true⟩ 1 "hi" none).2 = [t] ∧
      t.sender = Sender.ai ∧
      (generateAIResponse ⟨[], 0, 0⟩ [] ⟨GenOutcome.success ["a", "b"], true, true⟩ 1 "hi" none).1.rows = [] ++ [t] ∧
      concatStrings (emittedChunkTexts
        (generateAIResponse ⟨[], 0, 0⟩ [] ⟨GenOutcome.success ["a", "b"], true, true⟩ 1 "hi" none).2) =
        t.message :=
  generation_success_chunk_concat ⟨[], 0, 0⟩ [] ⟨GenOutcome.success ["a", "b"], true, true⟩
    1 "hi" none ["a", "b"] rfl rfl

/-- C4: goal-scoped context assembly fails closed — when no goal row
matches both the supplied goal id and the callers user id the context block
is the empty string and no error is raised — and the block computed from
the full goals table equals the one computed from the callers rows alone,
so data of goals owned by other users can never reach the prompt. -/
theorem goal_context_cross_tenant (goals : List Goal) (g uid : Nat) :
    (goals.find? (fun go => go.id == g && go.userId == uid) = none →
      goalContext goals g uid = "") ∧
    goalContext (goals.filter (fun go => go.userId == uid)) g uid =
      goalContext goals g uid := by
  constructor
  · intro h
    simp [goalContext, h]
  · have himp : ∀ go : Goal,
        (go.id == g && go.userId == uid) = true → (go.userId == uid) = true := by
      intro go hgo
      exact ((Bool.and_eq_true _ _).mp hgo).2
    unfold goalContext
    rw [find?_filter_of_imp _ _ himp goals]

/-- Witness for C4: a goal owned by user 99 yields an empty context block
for caller 7, and filtering to the callers goals changes nothing. -/
theorem goal_context_cross_tenant_witness :
    goalContext [⟨1, 99, "Other goal", "desc", "active", "easy", 4, [], 0⟩] 1 7 = "" ∧
    goalContext (List.filter (fun go => go.userId == 7)
      [⟨1, 99, "Other goal", "desc", "active", "easy", 4, [], 0⟩]) 1 7 =
      goalContext [⟨1, 99, "Other goal", "desc", "active", "easy", 4, [], 0⟩] 1 7 :=
  ⟨(goal_context_cross_tenant [⟨1, 99, "Other goal", "desc", "active", "easy", 4, [], 0⟩] 1 7).1 rfl,
   (goal_context_cross_tenant [⟨1, 99, "Other goal", "desc", "active", "easy", 4, [], 0⟩] 1 7).2⟩

/-- Shared paging facts: the reversed page is sorted by ascending
timestamp, draws only from the filtered row set, and never exceeds the
limit. -/
theorem history_page_props (mine : List ChatTurn) (limitN offsetN : Nat) :
    ((((List.insertionSort tsGe mine).drop offsetN).take limitN).reverse).Sorted
      (fun a b => a.timestamp ≤ b.timestamp) ∧
    (∀ m ∈ (((List.insertionSort tsGe mine).drop offsetN).take limitN).reverse, m ∈ mine) ∧
    ((((List.insertionSort tsGe mine).drop offsetN).take limitN).reverse).length ≤ limitN := by
  have hs : (List.insertionSort tsGe mine).Sorted tsGe :=
    List.sorted_insertionSort tsGe mine
  have hsub : List.Sublist (((List.insertionSort tsGe mine).drop offsetN).take limitN)
      (List.insertionSort tsGe mine) :=
    (List.take_sublist _ _).trans (List.drop_sublist _ _)
  have hp : (((List.insertionSort tsGe mine).drop offsetN).take limitN).Pairwise tsGe :=
    List.Pairwise.sublist hsub hs
  refine ⟨?_, ?_, ?_⟩
  · unfold List.Sorted
    exact List.pairwise_reverse.mpr (hp.imp (fun h => h))
  · intro m hm
    rw [List.mem_reverse] at hm
    exact ((List.perm_insertionSort tsGe mine).mem_iff).mp (hsub.subset hm)
  · rw [List.length_reverse, List.length_take]
    exact Nat.min_le_left _ _

/-- C5: get_chat_history returns the callers turns (goal-filtered when a
truthy goal id is supplied), paged by timestamp descending with the given
limit and offset, delivered oldest-first, with hasMore true exactly when a
full page of limit rows came back. -/
theorem chat_history_contract (db : DB) (uid : Nat) (gid : Option Nat)
    (limitN offsetN : Nat) :
    (getChatHistory db uid gid limitN offsetN).1.Sorted
      (fun a b => a.timestamp ≤ b.timestamp) ∧
    (∀ m ∈ (getChatHistory db uid gid limitN offsetN).1, m.userId = uid ∧
      ∀ g, truthyGoal gid = some g → m.goalId = some g) ∧
    (getChatHistory db uid gid limitN offsetN).1.length ≤ limitN ∧
    ((getChatHistory db uid gid limitN offsetN).2 = true ↔
      (getChatHistory db uid gid limitN offsetN).1.length = limitN) := by
  cases htg : truthyGoal gid with
  | none =>
      obtain ⟨hsorted, hmem, hlen⟩ :=
        history_page_props (db.rows.filter (fun r => r.userId == uid)) limitN offsetN
      simp only [getChatHistory, htg]
      refine ⟨hsorted, ?_, hlen, ?_⟩
      · intro m hm
        have hmf := hmem m hm
        rw [List.mem_filter] at hmf
        exact ⟨by simpa using hmf.2, fun g hg => by simp at hg⟩
      · simp [decide_eq_true_iff, List.length_reverse]
  | some g =>
      obtain ⟨hsorted, hmem, hlen⟩ :=
        history_page_props ((db.rows.filter (fun r => r.userId == uid)).filter
          (fun r => r.goalId == some g)) limitN offsetN
      simp only [getChatHistory, htg]
      refine ⟨hsorted, ?_, hlen, ?_⟩
      · intro m hm
        have hmf := hmem m hm
        rw [List.mem_filter] at hmf
        have hmu := hmf.1
        rw [List.mem_filter] at hmu
        refine ⟨by simpa using hmu.2, fun g2 hg2 => ?_⟩
        have hgg : g2 = g := (Option.some.inj hg2).symm
        exact hgg ▸ (by simpa using hmf.2)
      · simp [decide_eq_true_iff, List.length_reverse]

/-- Witness for C5: a user with five turns queried with limit 2, offset 0. -/
theorem chat_history_contract_witness :
    (getChatHistory ⟨[⟨1, 1, none, "m1", Sender.user, 0⟩, ⟨2, 1, none, "m2", Sender.user, 1⟩,
        ⟨3, 1, none, "m3", Sender.user, 2⟩, ⟨4, 1, none, "m4", Sender.user, 3⟩,
        ⟨5, 1, none, "m5", Sender.user, 4⟩], 6, 5⟩ 1 none 2 0).1.Sorted
      (fun a b => a.timestamp ≤ b.timestamp) ∧
    (∀ m ∈ (getChatHistory ⟨[⟨1, 1, none, "m1", Sender.user, 0⟩, ⟨2, 1, none, "m2", Sender.user, 1⟩,
        ⟨3, 1, none, "m3", Sender.user, 2⟩, ⟨4, 1, none, "m4", Sender.user, 3⟩,
        ⟨5, 1, none, "m5", Sender.user, 4⟩], 6, 5⟩ 1 none 2 0).1, m.userId = 1 ∧
      ∀ g, truthyGoal none = some g → m.goalId = some g) ∧
    (getChatHistory ⟨[⟨1, 1, none, "m1", Sender.user, 0⟩, ⟨2, 1, none, "m2", Sender.user, 1⟩,
        ⟨3, 1, none, "m3", Sender.user, 2⟩, ⟨4, 1, none, "m4", Sender.user, 3⟩,
        ⟨5, 1, none, "m5", Sender.user, 4⟩], 6, 5⟩ 1 none 2 0).1.length ≤ 2 ∧
    ((getChatHistory ⟨[⟨1, 1, none, "m1", Sender.user, 0⟩, ⟨2, 1, none, "m2", Sender.user, 1⟩,
        ⟨3, 1, none, "m3", Sender.user, 2⟩, ⟨4, 1, none, "m4", Sender.user, 3⟩,
        ⟨5, 1, none, "m5", Sender.user, 4⟩], 6, 5⟩ 1 none 2 0).2 = true ↔
      (getChatHistory ⟨[⟨1, 1, none, "m1", Sender.user, 0⟩, ⟨2, 1, none, "m2", Sender.user, 1⟩,
        ⟨3, 1, none, "m3", Sender.user, 2⟩, ⟨4, 1, none, "m4", Sender.user, 3⟩,
        ⟨5, 1, none, "m5", Sender.user, 4⟩], 6, 5⟩ 1 none 2 0).1.length = 2) :=
  chat_history_contract ⟨[⟨1, 1, none, "m1", Sender.user, 0⟩, ⟨2, 1, none, "m2", Sender.user, 1⟩,
    ⟨3, 1, none, "m3", Sender.user, 2⟩, ⟨4, 1, none, "m4", Sender.user, 3⟩,
    ⟨5, 1, none, "m5", Sender.user, 4⟩], 6, 5⟩ 1 none 2 0

/-- C6 counterexample: negative limit and offset values supplied by the
caller are pushed into the storage query unchanged, so the forwarded
parameters are not validated as non-negative. -/
theorem history_params_unvalidated_counterexample :
    (historyQueryParams (some (-1)) (some (-2))).1 < 0 ∧
    (historyQueryParams (some (-1)) (some (-2))).2 < 0 := by
  decide

/-- C6 amended: the handler applies the defaults 50 and 0 only when the
fields are absent and otherwise forwards the caller-supplied limit and
offset into the storage query unchanged, with no validation or clamping. -/
theorem history_params_forwarded (l o : Int) :
    historyQueryParams (some l) (some o) = (l, o) ∧
    historyQueryParams none none = (50, 0) :=
  ⟨rfl, rfl⟩

/-- C7: evaluation of the conversational-memory rendering on a store with
two prior turns A (older) and B (newer) shows the prompt block lists B
before A — newest first, not oldest first as intended. -/
theorem conversation_history_newest_first :
    conversationHistory ⟨[⟨1, 1, none, "A", Sender.user, 0⟩,
      ⟨2, 1, none, "B", Sender.user, 1⟩], 3, 2⟩ 1 = "User: B\nUser: A" ∧
    "User: B\nUser: A" ≠ "User: A\nUser: B" := by
  refine ⟨rfl, ?_⟩
  decide

/-- C9 counterexample: with two connections of user 7 and one of user 8,
a typing event from connection 1 reaches only connection 2 — the sending
connection itself is excluded from the broadcast, so it is not true that
both same-identity connections receive it. -/
theorem typing_not_echoed_to_sender :
    typingRecipients [⟨1, 7⟩, ⟨2, 7⟩, ⟨3, 8⟩] ⟨1, 7⟩ = [⟨2, 7⟩] ∧
    (⟨1, 7⟩ : Conn) ∉ typingRecipients [⟨1, 7⟩, ⟨2, 7⟩, ⟨3, 8⟩] ⟨1, 7⟩ := by
  refine ⟨rfl, ?_⟩
  decide

/-- C9 amended: a typing event persists nothing and broadcasts one
user_typing event exactly to the connections that share the senders
identity and are not the sending connection itself; connections of other
identities receive nothing. -/
theorem typing_private_scope (db : DB) (conns : List Conn) (sender : Conn)
    (b : Bool) :
    (handleTyping db conns sender b).1 = db ∧
    (handleTyping db conns sender b).2.2 = Event.userTyping sender.userId b ∧
    ∀ c : Conn, c ∈ (handleTyping db conns sender b).2.1 ↔
      (c ∈ conns ∧ c.userId = sender.userId ∧ c.connId ≠ sender.connId) := by
  refine ⟨rfl, rfl, ?_⟩
  intro c
  simp [handleTyping, typingRecipients, List.mem_filter, and_assoc]

/-- Witness for C9 amended: the second connection of user 7 is exactly the
recipient set when the first one types. -/
theorem typing_private_scope_witness :
    (handleTyping ⟨[], 0, 0⟩ [⟨1, 7⟩, ⟨2, 7⟩, ⟨3, 8⟩] ⟨1, 7⟩ true).1 = ⟨[], 0, 0⟩ ∧
    (handleTyping ⟨[], 0, 0⟩ [⟨1, 7⟩, ⟨2, 7⟩, ⟨3, 8⟩] ⟨1, 7⟩ true).2.2 =
      Event.userTyping 7 true ∧
    ∀ c : Conn, c ∈ (handleTyping ⟨[], 0, 0⟩ [⟨1, 7⟩, ⟨2, 7⟩, ⟨3, 8⟩] ⟨1, 7⟩ true).2.1 ↔
      (c ∈ [(⟨1, 7⟩ : Conn), ⟨2, 7⟩, ⟨3, 8⟩] ∧ c.userId = 7 ∧ c.connId ≠ 1) :=
  typing_private_scope ⟨[], 0, 0⟩ [⟨1, 7⟩, ⟨2, 7⟩, ⟨3, 8⟩] ⟨1, 7⟩ true

/-- C10: after a successful non-blank submission, the conversational-memory
fetch performed by the triggered generation returns the just-persisted user
turn first (it is the newest row at fetch time) followed by at most nine
strictly earlier turns, and the submitted text therefore appears twice in
the assembled prompt: at the head of the rendered history block and again
as the appended new user message. -/
theorem generation_memory_includes_current_turn (db : DB) (goals : List Goal)
    (uid : Nat) (msg : String) (gid : Option Nat)
    (hwf : DB.WF db) (hmsg : jsTrim msg ≠ "") :
    ∃ (t : ChatTurn) (rest : List ChatTurn) (histTail : String),
      (handleChatMessage db true uid msg gid).1.rows = db.rows ++ [t] ∧
      t.message = msg ∧ t.sender = Sender.user ∧
      recentMessagesList (handleChatMessage db true uid msg gid).1 uid = t :: rest ∧
      rest.length ≤ 9 ∧
      (∀ r ∈ rest, r.timestamp < t.timestamp) ∧
      assembledPrompt (handleChatMessage db true uid msg gid).1 goals uid msg gid =
        systemPrompt ++
        personalizedContext (handleChatMessage db true uid msg gid).1 goals uid gid ++
        "\n\nPrevious conversation:\n" ++ ("User: " ++ msg ++ histTail) ++
        "\n\nUser: " ++ msg := by
  have hrows : (handleChatMessage db true uid msg gid).1.rows =
      db.rows ++ [(db.insert uid (truthyGoal gid) msg Sender.user).2] := by
    simp [handleChatMessage, if_neg hmsg, DB.insert]
  have hmax : ∀ y ∈ db.rows.filter (fun r => r.userId == uid),
      y.timestamp < (db.insert uid (truthyGoal gid) msg Sender.user).2.timestamp := by
    intro y hy
    exact hwf y (List.mem_filter.mp hy).1
  obtain ⟨tl, hsort, hperm⟩ :=
    insertionSort_max_head (db.rows.filter (fun r => r.userId == uid))
      (db.insert uid (truthyGoal gid) msg Sender.user).2 hmax
  have hfilc : List.filter (fun r => r.userId == uid)
      [(db.insert uid (truthyGoal gid) msg Sender.user).2] =
      [(db.insert uid (truthyGoal gid) msg Sender.user).2] := by
    simp [DB.insert]
  have hrecent : recentMessagesList (handleChatMessage db true uid msg gid).1 uid =
      (db.insert uid (truthyGoal gid) msg Sender.user).2 :: tl.take 9 := by
    unfold recentMessagesList
    rw [hrows, List.filter_append, hfilc, hsort]
    rfl
  have hlen9 : (tl.take 9).length ≤ 9 := by
    rw [List.length_take]
    exact Nat.min_le_left _ _
  have hrest : ∀ r ∈ tl.take 9,
      r.timestamp < (db.insert uid (truthyGoal gid) msg Sender.user).2.timestamp := by
    intro r hr
    have hrtl : r ∈ tl := (List.take_sublist 9 tl).subset hr
    have hrf : r ∈ db.rows.filter (fun x => x.userId == uid) := hperm.mem_iff.mp hrtl
    exact hwf r (List.mem_filter.mp hrf).1
  have hconv : ∃ histTail : String,
      conversationHistory (handleChatMessage db true uid msg gid).1 uid =
        "User: " ++ msg ++ histTail := by
    have hslice : sliceLast10
        ((db.insert uid (truthyGoal gid) msg Sender.user).2 :: tl.take 9) =
        (db.insert uid (truthyGoal gid) msg Sender.user).2 :: tl.take 9 := by
      unfold sliceLast10
      have h10 : ((db.insert uid (truthyGoal gid) msg Sender.user).2 :: tl.take 9).length ≤ 10 := by
        rw [List.length_cons]
        omega
      rw [Nat.sub_eq_zero_of_le h10, List.drop_zero]
    unfold conversationHistory
    rw [hrecent, hslice, List.map_cons]
    rw [show renderTurn (db.insert uid (truthyGoal gid) msg Sender.user).2 =
        "User: " ++ msg from rfl]
    cases hm : (tl.take 9).map renderTurn with
    | nil =>
        refine ⟨"", ?_⟩
        simp [joinLines, String.append_empty]
    | cons y ys =>
        refine ⟨"\n" ++ joinLines (y :: ys), ?_⟩
        simp [joinLines, String.append_assoc]
  obtain ⟨histTail, hct⟩ := hconv
  refine ⟨(db.insert uid (truthyGoal gid) msg Sender.user).2, tl.take 9,
          histTail, hrows, rfl, rfl, hrecent, hlen9, hrest, ?_⟩
  unfold assembledPrompt
  rw [hct]

/-- Witness for C10: an empty store at clock 5 and the submission hi. -/
theorem generation_memory_includes_current_turn_witness :
    ∃ (t : ChatTurn) (rest : List ChatTurn) (histTail : String),
      (handleChatMessage ⟨[], 0, 5⟩ true 1 "hi" none).1.rows = [] ++ [t] ∧
      t.message = "hi" ∧ t.sender = Sender.user ∧
      recentMessagesList (handleChatMessage ⟨[], 0, 5⟩ true 1 "hi" none).1 1 = t :: rest ∧
      rest.length ≤ 9 ∧
      (∀ r ∈ rest, r.timestamp < t.timestamp) ∧
      assembledPrompt (handleChatMessage ⟨[], 0, 5⟩ true 1 "hi" none).1 [] 1 "hi" none =
        systemPrompt ++
        personalizedContext (handleChatMessage ⟨[], 0, 5⟩ true 1 "hi" none).1 [] 1 none ++
        "\n\nPrevious conversation:\n" ++ ("User: " ++ "hi" ++ histTail) ++
        "\n\nUser: " ++ "hi" :=
  generation_memory_includes_current_turn ⟨[], 0, 5⟩ [] 1 "hi" none
    (fun r hr => absurd hr (List.not_mem_nil r)) (by decide)
